import Mathlib

/-!
Verification of `multiworld/envs/mujoco/sawyer_door/sawyer_door_env.py`.

The file shallowly embeds the environment classes (`SawyerDoorEnv`,
`SawyerDoorPushOpenEnv`, `SawyerDoorPushOpenActionLimitedEnv`,
`SawyerDoorPushOpenAndReachEnv`, `SawyerDoorPullOpenEnv`).  Floating point
numbers are modelled by rationals (the only irrational operation in the
source, `np.linalg.norm`, is modelled over the reals).  The external MuJoCo
physics engine is an opaque black box and appears as explicit function
parameters (`MjForward` for `sim.forward`-style recomputation of derived
body poses, and a `SimState → SimState` parameter for `do_simulation`).
Unused `info` arguments of the reward functions are omitted.
-/

deriving instance DecidableEq for Except

/-- A 3-vector of rationals (a numpy row such as a mocap position). -/
structure Vec3 where
  x : ℚ
  y : ℚ
  z : ℚ
deriving DecidableEq, Repr

/-- A 4-vector of rationals (an action or a quaternion). -/
structure Vec4 where
  x : ℚ
  y : ℚ
  z : ℚ
  w : ℚ
deriving DecidableEq, Repr

instance : Add Vec3 := ⟨fun a b => ⟨a.x + b.x, a.y + b.y, a.z + b.z⟩⟩

instance : Sub Vec3 := ⟨fun a b => ⟨a.x - b.x, a.y - b.y, a.z - b.z⟩⟩

/-- Function `np.clip(x, lo, hi)`: `x` clamped from below by `lo` first, then from
above by `hi` (numpy applies the upper bound last). -/
def npclip (x lo hi : ℚ) : ℚ := min (max x lo) hi

/-- Function `np.clip(a, -1, 1)` on a 4-vector action, componentwise. -/
def clipAction (a : Vec4) : Vec4 :=
  ⟨npclip a.x (-1) 1, npclip a.y (-1) 1, npclip a.z (-1) 1, npclip a.w (-1) 1⟩

/-- Lines 80-81 of `step`: the action is clipped to `[-1, 1]`, its first
three components are scaled by `self._pos_action_scale`, and the result is
the mocap displacement handed to `mocap_set_action`. -/
def stepActionDelta (pos_action_scale : ℚ) (a : Vec4) : Vec3 :=
  let c := clipAction a
  ⟨c.x * pos_action_scale, c.y * pos_action_scale, c.z * pos_action_scale⟩

/-- The constructor keyword arguments of `SawyerDoorEnv.__init__` with their
default values (source lines 21-31). -/
structure EnvConfig where
  frame_skip : ℕ := 30
  goal_low : ℚ := -(15708/10000)
  goal_high : ℚ := 15708/10000
  pos_action_scale : ℚ := 1/100
  action_reward_scale : ℚ := 0
  reward_type : String := "angle_difference"
  indicator_threshold : ℚ := 2/100
  fix_goal : Bool := false
  fixed_goal : List ℚ := [15/100, 6/10, 3/10]
deriving Repr

namespace SawyerDoorEnv

/-- Source `SawyerDoorEnv.compute_rewards` (lines 151-159):
`r = np.abs(achieved_goals - desired_goals)`; under `'angle_difference'`
the result is `-r`; under `'hand_success'` it is
`-(r < self.indicator_threshold).astype(float)`; any other reward type
raises `NotImplementedError("Invalid/no reward type.")`.  The unused `info`
argument is omitted; the raised exception is modelled with `Except`. -/
def compute_rewards (cfg : EnvConfig) (achieved_goals desired_goals : List ℚ) :
    Except String (List ℚ) :=
  let r := List.zipWith (fun a d => |a - d|) achieved_goals desired_goals
  if cfg.reward_type = "angle_difference" then
    .ok (r.map fun x => -x)
  else if cfg.reward_type = "hand_success" then
    .ok (r.map fun x => -(if x < cfg.indicator_threshold then (1 : ℚ) else 0))
  else
    .error "Invalid/no reward type."

end SawyerDoorEnv

/-- The MuJoCo data visible to this file: joint positions and velocities
(the door hinge is `qpos[0]`, i.e. joint `doorjoint`), the mocap target pose
(`mocap_pos` / `mocap_quat`), and the derived world pose of the `leftclaw`
end-effector body (`body_xpos` / `body_xquat`), recomputed by the engine. -/
structure SimState where
  qpos : List ℚ
  qvel : List ℚ
  mocapPos : Vec3
  mocapQuat : Vec4
  bodyPos : Vec3
  bodyQuat : Vec4
deriving DecidableEq, Repr

/-- The environment's mutable state: the simulator data plus the stored goal
`self._goal_angle`.  Because `sample_goals` stores whatever vector
`fixed_goal` holds, the goal is a list of rationals. -/
structure EnvState where
  sim : SimState
  goal_angle : List ℚ
deriving DecidableEq, Repr

/-- The `sim.forward`-style recomputation performed by the external engine: from
`qpos`, `qvel` and the mocap pose it derives the `leftclaw` body world pose.
The engine is a black box, so this is a parameter of the embedding. -/
abbrev MjForward := List ℚ → List ℚ → Vec3 → Vec4 → Vec3 × Vec4

namespace SawyerDoorEnv

/-- Source `get_endeff_pos` (line 137): the world position of the end effector. -/
def get_endeff_pos (sim : SimState) : Vec3 := sim.bodyPos

/-- Source `get_door_angle` (line 140): `np.array([qpos of doorjoint])`. -/
def get_door_angle (sim : SimState) : List ℚ := [sim.qpos.getD 0 0]

/-- Source `reset_mocap2body_xpos` (lines 127-135): the mocap target is moved to the
end-effector body's current world pose. -/
def reset_mocap2body_xpos (sim : SimState) : SimState :=
  { sim with mocapPos := sim.bodyPos, mocapQuat := sim.bodyQuat }

/-- Source `SawyerDoorEnv.mocap_set_action` (lines 115-125): the displacement is
added to the current mocap position (after resetting it to the body pose),
the z coordinate is overwritten with `np.clip(0.06, 0, 0.5)` and the
quaternion with `[1, 0, 1, 0]`.  x and y are not clamped in the base class. -/
def mocap_set_action (sim : SimState) (action : Vec3) : SimState :=
  let sim1 := reset_mocap2body_xpos sim
  let p := sim1.mocapPos + action
  { sim1 with
      mocapPos := { p with z := npclip (6/100) 0 (5/10) }
      mocapQuat := ⟨1, 0, 1, 0⟩ }

end SawyerDoorEnv

namespace SawyerDoorPushOpenEnv

/-- Source `SawyerDoorPushOpenEnv.mocap_set_action` (lines 272-292): like the base
version but x is clamped to `[-0.15, 0.15]` and y to `[0.5, 2]`.
`SawyerDoorPushOpenAndReachEnv` inherits this method. -/
def mocap_set_action (sim : SimState) (action : Vec3) : SimState :=
  let sim1 := SawyerDoorEnv.reset_mocap2body_xpos sim
  let p := sim1.mocapPos + action
  { sim1 with
      mocapPos :=
        ⟨npclip p.x (-(15/100)) (15/100), npclip p.y (5/10) 2,
          npclip (6/100) 0 (5/10)⟩
      mocapQuat := ⟨1, 0, 1, 0⟩ }

end SawyerDoorPushOpenEnv

namespace SawyerDoorPushOpenActionLimitedEnv

/-- Source `SawyerDoorPushOpenActionLimitedEnv.mocap_set_action` (lines 303-323):
x is clamped to `[-max_x_pos, max_x_pos]`, y to `[min_y_pos, max_y_pos]`
(`__init__` sets `min_y_pos = 0.5`), z is overwritten as always. -/
def mocap_set_action (max_x_pos max_y_pos min_y_pos : ℚ)
    (sim : SimState) (action : Vec3) : SimState :=
  let sim1 := SawyerDoorEnv.reset_mocap2body_xpos sim
  let p := sim1.mocapPos + action
  { sim1 with
      mocapPos :=
        ⟨npclip p.x (-max_x_pos) max_x_pos, npclip p.y min_y_pos max_y_pos,
          npclip (6/100) 0 (5/10)⟩
      mocapQuat := ⟨1, 0, 1, 0⟩ }

end SawyerDoorPushOpenActionLimitedEnv

namespace SawyerDoorPullOpenEnv

/-- Source `SawyerDoorPullOpenEnv.mocap_set_action` (lines 462-482): x is clamped to
`[-0.15, 0.15]`, y to `[-3, 0.7]`, z is overwritten as always. -/
def mocap_set_action (sim : SimState) (action : Vec3) : SimState :=
  let sim1 := SawyerDoorEnv.reset_mocap2body_xpos sim
  let p := sim1.mocapPos + action
  { sim1 with
      mocapPos :=
        ⟨npclip p.x (-(15/100)) (15/100), npclip p.y (-3) (7/10),
          npclip (6/100) 0 (5/10)⟩
      mocapQuat := ⟨1, 0, 1, 0⟩ }

end SawyerDoorPullOpenEnv

/-- The observation dictionary built by `SawyerDoorEnv._get_obs`. -/
structure Obs where
  observation : List ℚ
  desired_goal : List ℚ
  achieved_goal : List ℚ
  state_observation : List ℚ
  state_desired_goal : List ℚ
  state_achieved_goal : List ℚ
deriving DecidableEq, Repr

/-- The `info` dictionary built by `SawyerDoorEnv._get_info`. -/
structure StepInfo where
  angle_difference : List ℚ
  angle_success : List ℚ
deriving DecidableEq, Repr

namespace SawyerDoorEnv

/-- Source `SawyerDoorEnv._get_obs` (lines 94-105): the flat observation is the
end-effector position concatenated with the door angle; the goal views all
repeat `self._goal_angle` and the achieved views the door angle. -/
def _get_obs (s : EnvState) : Obs :=
  let pos := get_endeff_pos s.sim
  let angle := get_door_angle s.sim
  let flat_obs := [pos.x, pos.y, pos.z] ++ angle
  { observation := flat_obs
    desired_goal := s.goal_angle
    achieved_goal := angle
    state_observation := flat_obs
    state_desired_goal := s.goal_angle
    state_achieved_goal := angle }

/-- Source `SawyerDoorEnv._get_info` (lines 107-113): the elementwise distance
between the door angle and the stored goal, and a 1.0/0.0 success flag per
element (`angle_diff < indicator_threshold`). -/
def _get_info (cfg : EnvConfig) (s : EnvState) : StepInfo :=
  let angle_diff :=
    List.zipWith (fun a g => |a - g|) (get_door_angle s.sim) s.goal_angle
  { angle_difference := angle_diff
    angle_success :=
      angle_diff.map fun d => if d < cfg.indicator_threshold then (1 : ℚ) else 0 }

end SawyerDoorEnv

/-- The dictionary returned by `SawyerDoorEnv.sample_goals`: a batch of
goals under both the `desired_goal` and `state_desired_goal` keys. -/
structure GoalsDict where
  desired_goal : List (List ℚ)
  state_desired_goal : List (List ℚ)
deriving DecidableEq, Repr

/-- A single sampled goal (one row of a `GoalsDict`). -/
structure GoalDict where
  desired_goal : List ℚ
  state_desired_goal : List ℚ
deriving DecidableEq, Repr

namespace SawyerDoorEnv

/-- Source `SawyerDoorEnv.sample_goals` (lines 187-203): with `fix_goal` set the
batch is `batch_size` copies of the entire `fixed_goal` vector; otherwise
each row is an independent uniform draw from the goal box, modelled by the
random-number oracle `rng` (one drawn row per batch index). -/
def sample_goals (cfg : EnvConfig) (rng : ℕ → List ℚ) (batch_size : ℕ) :
    GoalsDict :=
  let goals :=
    if cfg.fix_goal then List.replicate batch_size cfg.fixed_goal
    else (List.range batch_size).map rng
  { desired_goal := goals, state_desired_goal := goals }

end SawyerDoorEnv

namespace MultitaskEnv

/-- Modelled from the spec: `MultitaskEnv.sample_goal`, defined outside this
file, draws one goal by taking row 0 of `sample_goals(1)` (spec section 4.4:
goals are drawn from `sample_goals`, batched; a single sample is the
one-element batch). -/
def sample_goal (cfg : EnvConfig) (rng : ℕ → List ℚ) : GoalDict :=
  let goals := SawyerDoorEnv.sample_goals cfg rng 1
  { desired_goal := goals.desired_goal.getD 0 []
    state_desired_goal := goals.state_desired_goal.getD 0 [] }

/-- Modelled from the spec: `MultitaskEnv.compute_reward`, defined outside
this file, is the single-sample wrapper of the batched `compute_rewards`
(spec section 4.3: `compute_reward(achieved, desired, info) -> scalar`,
batched path used for relabeling); it returns the first entry of the
one-element batch result. -/
def compute_reward (cfg : EnvConfig) (achieved_goal desired_goal : List ℚ) :
    Except String ℚ :=
  (SawyerDoorEnv.compute_rewards cfg achieved_goal desired_goal).map
    fun rs => rs.getD 0 0

end MultitaskEnv

namespace SawyerDoorEnv

/-- Source `SawyerDoorEnv.init_angles` (lines 172-179). -/
def init_angles : List ℚ :=
  [0,
   102866769/100000000, -(695207647/1000000000), 422932911/1000000000,
   176670458/100000000, -(569637604/1000000000), 624117280/1000000000,
   353404635/100000000]

/-- Source `SawyerDoorEnv.reset` (lines 161-170): the joint state is overwritten
with `init_angles` and zero velocities (`set_state`, which makes the engine
recompute the derived body pose, modelled by `fwd`); with
`resample_on_reset` a fresh goal is sampled and stored in
`self._goal_angle`; the new observation is returned. -/
def reset (cfg : EnvConfig) (fwd : MjForward) (rng : ℕ → List ℚ)
    (s : EnvState) (resample_on_reset : Bool) : EnvState × Obs :=
  let qpos := init_angles
  let qvel := List.replicate s.sim.qvel.length (0 : ℚ)
  let derived := fwd qpos qvel s.sim.mocapPos s.sim.mocapQuat
  let sim1 : SimState :=
    { qpos := qpos, qvel := qvel
      mocapPos := s.sim.mocapPos, mocapQuat := s.sim.mocapQuat
      bodyPos := derived.1, bodyQuat := derived.2 }
  let goal :=
    if resample_on_reset then (MultitaskEnv.sample_goal cfg rng).state_desired_goal
    else s.goal_angle
  let s1 : EnvState := { sim := sim1, goal_angle := goal }
  (s1, _get_obs s1)

/-- Source `SawyerDoorEnv.step` (lines 79-92): the raw action is clipped to
`[-1, 1]`, its first three components scaled by `pos_action_scale` are
handed to the variant's `mocap_set_action` (dynamic dispatch, modelled by
the `mocapSet` parameter), the engine advances with zero torques (`doSim`),
and the method returns the observation, the reward of
`MultitaskEnv.compute_reward` on the achieved/desired goals, `done = False`,
and the info dictionary.  An invalid reward type propagates as an error. -/
def step (cfg : EnvConfig) (doSim : SimState → SimState)
    (mocapSet : SimState → Vec3 → SimState) (s : EnvState) (a : Vec4) :
    Except String (Obs × ℚ × Bool × StepInfo) :=
  let sim1 := mocapSet s.sim (stepActionDelta cfg.pos_action_scale a)
  let sim2 := doSim sim1
  let s1 : EnvState := { sim := sim2, goal_angle := s.goal_angle }
  let info := _get_info cfg s1
  let obs := _get_obs s1
  (MultitaskEnv.compute_reward cfg obs.achieved_goal obs.desired_goal).map
    fun reward => (obs, reward, false, info)

/-- Source `SawyerDoorEnv.get_env_state` (lines 250-255): the snapshot is the
engine joint state (qpos, qvel), the mocap pose, and a copy of the stored
goal. -/
def get_env_state (s : EnvState) :
    ((List ℚ × List ℚ) × (Vec3 × Vec4)) × List ℚ :=
  ((( s.sim.qpos, s.sim.qvel), (s.sim.mocapPos, s.sim.mocapQuat)), s.goal_angle)

/-- Source `SawyerDoorEnv.set_env_state` (lines 257-265): the joint state and mocap
pose are written back, `sim.forward()` recomputes the derived body pose, and
the goal is restored. -/
def set_env_state (fwd : MjForward)
    (state : ((List ℚ × List ℚ) × (Vec3 × Vec4)) × List ℚ) : EnvState :=
  let joint_state := state.1.1
  let mocap_state := state.1.2
  let derived := fwd joint_state.1 joint_state.2 mocap_state.1 mocap_state.2
  { sim :=
      { qpos := joint_state.1, qvel := joint_state.2
        mocapPos := mocap_state.1, mocapQuat := mocap_state.2
        bodyPos := derived.1, bodyQuat := derived.2 }
    goal_angle := state.2 }

end SawyerDoorEnv

/-- A state whose derived body pose agrees with what the engine's `forward`
computes from its joint and mocap state: every state actually produced by
the engine (hence every reachable state) has this property. -/
def forward_consistent (fwd : MjForward) (s : EnvState) : Prop :=
  (s.sim.bodyPos, s.sim.bodyQuat)
    = fwd s.sim.qpos s.sim.qvel s.sim.mocapPos s.sim.mocapQuat

/-- Function `np.linalg.norm` of a 4-vector (the Euclidean norm, over the reals). -/
noncomputable def np_linalg_norm4 (v : Vec4) : ℝ :=
  Real.sqrt (((v.x ^ 2 + v.y ^ 2 + v.z ^ 2 + v.w ^ 2 : ℚ) : ℝ))

namespace MultitaskEnv

/-- Modelled from the spec: `MultitaskEnv.convert_ob_to_goal`, defined
outside this file, maps a flat observation to the part comparable with a
goal; per spec section 4.2 the base task's goal is the door angle, the last
entry of the 4-element flat observation. -/
def convert_ob_to_goal (obs : List ℚ) : List ℚ := [obs.getLastD 0]

end MultitaskEnv

namespace SawyerDoorEnv

/-- Source `SawyerDoorEnv._compute_reward` (lines 147-149): the negated absolute
difference between the converted observation angle and the goal, minus
`np.linalg.norm(action) * self.action_reward_scale`.  Unlike
`compute_rewards`, `self.reward_type` is never consulted here. -/
noncomputable def _compute_reward (cfg : EnvConfig) (obs goal : List ℚ)
    (action : Vec4) : ℝ :=
  -(((List.zipWith (fun a g => |a - g|) (MultitaskEnv.convert_ob_to_goal obs)
        goal).getD 0 0 : ℚ) : ℝ)
    - np_linalg_norm4 action * (cfg.action_reward_scale : ℝ)

end SawyerDoorEnv

/-- The constructor parameters of `SawyerDoorPushOpenAndReachEnv.__init__`
relevant to `step` (source lines 333-349), with their default values. -/
structure ReachConfig where
  pos_action_scale : ℚ := 1/100
  action_reward_scale : ℚ := 0
  target_pos_scale : ℚ := 0
  target_angle_scale : ℚ := 1
deriving Repr

/-- The goal of the reach variant: an end-effector position
`self._goal_pos` plus a door angle `self._goal_angle` (unpacked from the
4-element goal vector by `set_goal`, lines 422-425). -/
structure ReachGoal where
  goal_pos : Vec3
  goal_angle : ℚ
deriving DecidableEq, Repr

/-- The `info` dictionary of `SawyerDoorPushOpenAndReachEnv.step`. -/
structure ReachInfo where
  angle_difference : ℚ
  distance : ℝ
  total_distance : ℝ

/-- Indexing the observation dictionary with an integer key, as
`actual_angle = obs[-1]` does at line 383: the dictionary built by
`_get_obs` has exactly the six string keys, so an integer lookup can never
produce a value and raises `KeyError`. -/
def Obs.getItemInt (_obs : Obs) (i : ℤ) : Except String Empty :=
  .error ("KeyError: " ++ toString i)

namespace SawyerDoorPushOpenAndReachEnv

/-- Source `SawyerDoorPushOpenAndReachEnv.get_goal` (lines 431-432): the stored
position and angle reassembled into a 4-vector. -/
def get_goal (g : ReachGoal) : List ℚ :=
  [g.goal_pos.x, g.goal_pos.y, g.goal_pos.z, g.goal_angle]

/-- Source `SawyerDoorPushOpenAndReachEnv._compute_reward` (lines 382-387):
the reach variant defines no `_get_obs` of its own, so the `obs` that
`step` (line 370) hands to this method is the six-key dictionary of the
inherited `SawyerDoorEnv._get_obs` — and the method's first statement
`actual_angle = obs[-1]` (line 383) indexes that dictionary with the
integer key `-1`.  Every call therefore raises `KeyError: -1`; the
remaining statements of lines 384-387 (whose `obs[:3]` would likewise fail
on a dictionary) are unreachable, which the failing lookup's `Empty` value
type makes exact. -/
def _compute_reward (obs : Obs) (_goal : List ℚ) (_action : Vec4) :
    Except String (ℚ × ℝ × ℝ) :=
  (Obs.getItemInt obs (-1)).bind fun actual_angle => actual_angle.elim

/-- Source `SawyerDoorPushOpenAndReachEnv.step` (lines 365-380): clip and
scale the action, apply the inherited push-open `mocap_set_action`, advance
the engine, build the observation dictionary with the inherited `_get_obs`
(the variant's scalar `self._goal_angle` fills the dictionary's goal views,
embedded as a one-element vector; nothing reachable reads them), and hand
that dictionary to `_compute_reward` — which raises on every call, so the
reward combination, `done = False` and info construction of lines 372-380
are the dead continuation of the failing bind. -/
noncomputable def step (cfg : ReachConfig) (doSim : SimState → SimState)
    (g : ReachGoal) (s : SimState) (a : Vec4) :
    Except String (Obs × ℝ × Bool × ReachInfo) := do
  let ac := clipAction a
  let sim1 := SawyerDoorPushOpenEnv.mocap_set_action s
    (stepActionDelta cfg.pos_action_scale a)
  let sim2 := doSim sim1
  let obs := SawyerDoorEnv._get_obs { sim := sim2, goal_angle := [g.goal_angle] }
  let r ← _compute_reward obs (get_goal g) ac
  let angle_dist := r.1
  let action_penalty := r.2.1
  let pos_dist := r.2.2
  let reward : ℝ :=
    -1 * ((angle_dist : ℝ) * (cfg.target_angle_scale : ℝ)
      + action_penalty * (cfg.action_reward_scale : ℝ)
      + pos_dist * (cfg.target_pos_scale : ℝ))
  pure (obs, reward, false,
    { angle_difference := angle_dist, distance := pos_dist,
      total_distance := (angle_dist : ℝ) + pos_dist })

end SawyerDoorPushOpenAndReachEnv

/-- An error raised by the Python interpreter while loading or running the
module: an unresolvable global name, or a keyword argument a function does
not accept. -/
inductive PyError where
  | nameError (name : String)
  | unexpectedKeyword (kwarg : String)
deriving DecidableEq, Repr

/-- The module-level names bound by the import statements of
`sawyer_door_env.py` (lines 1-16) before any class body runs.  `Dict` and
`logger` are not among them. -/
def moduleImportedNames : List String :=
  ["abc", "OrderedDict", "mujoco_py", "np", "sys", "MujocoEnv", "Box",
   "Serializable", "get_stat_in_paths", "create_stats_ordered_dict",
   "get_asset_full_path", "MultitaskEnv",
   "PolicyWrappedWithExplorationStrategy", "EpsilonGreedy", "OUStrategy",
   "ZeroPolicy"]

/-- Resolution of a global name read by code in this module. -/
def resolveName (n : String) : Except PyError Unit :=
  if n ∈ moduleImportedNames then .ok () else .error (.nameError n)

/-- Resolve a sequence of global-name reads in order, stopping at the first
failure, as the interpreter does. -/
def resolveAll : List String → Except PyError Unit
  | [] => .ok ()
  | n :: rest => do
    resolveName n
    resolveAll rest

/-- The keyword parameters accepted by `SawyerDoorEnv.__init__`
(lines 21-31).  `min_angle` and `max_angle` are not among them. -/
def sawyerDoorEnvInitParams : List String :=
  ["frame_skip", "goal_low", "goal_high", "pos_action_scale",
   "action_reward_scale", "reward_type", "indicator_threshold", "fix_goal",
   "fixed_goal"]

/-- Binding a call's keyword arguments against a parameter list: the first
keyword that is not a declared parameter raises `TypeError: __init__() got
an unexpected keyword argument`. -/
def bindKwargs (params kwargs : List String) : Except PyError Unit :=
  match kwargs.find? (fun k => !(params.contains k)) with
  | some k => .error (.unexpectedKeyword k)
  | none => .ok ()

/-- The module-global names read by the body of `SawyerDoorEnv.__init__`, in
execution order (lines 32-58): the two base-class initializers, `np` and
`Box` for the goal/action/state spaces, then `Dict` for the observation
space at line 51 — which is never imported. -/
def sawyerDoorEnvInitGlobalReads : List String :=
  ["MultitaskEnv", "MujocoEnv", "np", "Box", "np", "np", "Box", "np", "np",
   "Box", "np", "np", "Dict"]

/-- Running `SawyerDoorEnv.__init__(**kwargs)`: bind the keyword arguments,
then execute the body, which resolves its global names in order. -/
def sawyerDoorEnvInit (kwargs : List String) : Except PyError Unit := do
  bindKwargs sawyerDoorEnvInitParams kwargs
  resolveAll sawyerDoorEnvInitGlobalReads

/-- Running `SawyerDoorPushOpenEnv.__init__(**kwargs)` (lines 267-270): it
forwards `min_angle` and `max_angle` ahead of the caller's keywords to the
base initializer. -/
def sawyerDoorPushOpenEnvInit (kwargs : List String) : Except PyError Unit :=
  sawyerDoorEnvInit ("min_angle" :: "max_angle" :: kwargs)

/-- Running `SawyerDoorPullOpenEnv.__init__(**kwargs)` (lines 457-460):
likewise forwards `min_angle` and `max_angle`. -/
def sawyerDoorPullOpenEnvInit (kwargs : List String) : Except PyError Unit :=
  sawyerDoorEnvInit ("min_angle" :: "max_angle" :: kwargs)

/-- Running `SawyerDoorPushOpenActionLimitedEnv.__init__(**kwargs)`
(lines 295-301): after storing its own bounds it calls the push-open
initializer with the caller's keywords. -/
def sawyerDoorPushOpenActionLimitedEnvInit (kwargs : List String) :
    Except PyError Unit :=
  sawyerDoorPushOpenEnvInit kwargs

/-- Evaluating the class bodies of the module: each `def`'s default-argument
expressions are evaluated at definition time, and the only default that is
a global name is `logger=logger` in
`SawyerDoorPushOpenAndReachEnv.log_diagnostics` (line 434), where `logger`
is bound nowhere in the module. -/
def moduleClassDefinitionsEval : Except PyError Unit := resolveName "logger"


/-! Helper lemmas. -/

lemma npclip_le (x lo hi : ℚ) : npclip x lo hi ≤ hi := min_le_right _ _

lemma le_npclip (x lo hi : ℚ) (h : lo ≤ hi) : lo ≤ npclip x lo hi :=
  le_min (le_max_right x lo) h

lemma abs_npclip_le_one (x : ℚ) : |npclip x (-1) 1| ≤ 1 :=
  abs_le.mpr ⟨le_npclip x (-1) 1 (by norm_num), npclip_le x (-1) 1⟩

lemma abs_npclip_mul_le (x s : ℚ) (hs : 0 ≤ s) : |npclip x (-1) 1 * s| ≤ s := by
  rw [abs_mul, abs_of_nonneg hs]
  calc |npclip x (-1) 1| * s ≤ 1 * s :=
        mul_le_mul_of_nonneg_right (abs_npclip_le_one x) hs
    _ = s := one_mul s

lemma npclip_const_z : npclip (6/100) 0 (5/10) = 6/100 := by
  norm_num [npclip, min_def, max_def]

/-- The `done` flag a base-class `step` result would hand to the caller
(`false` also when the call raised and returned nothing). -/
def stepDone : Except String (Obs × ℚ × Bool × StepInfo) → Bool
  | .error _ => false
  | .ok out => out.2.2.1

lemma stepDone_map (e : Except String ℚ) (obs : Obs) (info : StepInfo) :
    stepDone (e.map fun reward => (obs, reward, false, info)) = false := by
  cases e <;> rfl

/-! Concrete states used as witnesses. -/

/-- A concrete black-box forward function. -/
def fwd0 : MjForward := fun _ _ _ _ => (⟨0, 0, 0⟩, ⟨1, 0, 0, 0⟩)

/-- A concrete random-number oracle. -/
def rng0 : ℕ → List ℚ := fun _ => [0]

/-- A concrete environment state consistent with `fwd0`. -/
def s0 : EnvState :=
  { sim :=
      { qpos := List.replicate 8 0, qvel := List.replicate 8 0
        mocapPos := ⟨0, 0, 0⟩, mocapQuat := ⟨1, 0, 0, 0⟩
        bodyPos := ⟨0, 0, 0⟩, bodyQuat := ⟨1, 0, 0, 0⟩ }
    goal_angle := [0] }

/-! The claims. -/

/-- C1: for every configuration, constructing any of the environment classes
raises before initialization completes: evaluating the module's class
definitions already fails (`logger=logger` at line 434 reads an unbound
global), `SawyerDoorEnv.__init__` always reaches the unbound name `Dict` at
line 51 when its keywords bind, and the push-open, pull-open and
action-limited variants always die binding the forwarded `min_angle`
keyword the base initializer does not accept — so no public operation of
the environment boundary is ever reachable. -/
theorem c1_construction_always_fails :
    moduleClassDefinitionsEval = .error (.nameError "logger") ∧
    (∀ kwargs, ∃ e, sawyerDoorEnvInit kwargs = .error e) ∧
    sawyerDoorEnvInit [] = .error (.nameError "Dict") ∧
    (∀ kwargs, sawyerDoorPushOpenEnvInit kwargs
        = .error (.unexpectedKeyword "min_angle")) ∧
    (∀ kwargs, sawyerDoorPullOpenEnvInit kwargs
        = .error (.unexpectedKeyword "min_angle")) ∧
    (∀ kwargs, sawyerDoorPushOpenActionLimitedEnvInit kwargs
        = .error (.unexpectedKeyword "min_angle")) := by
  refine ⟨by decide, ?_, by decide, fun kwargs => rfl, fun kwargs => rfl,
    fun kwargs => rfl⟩
  intro kwargs
  unfold sawyerDoorEnvInit bindKwargs
  cases h : kwargs.find? (fun k => !(sawyerDoorEnvInitParams.contains k)) with
  | some k => exact ⟨.unexpectedKeyword k, by simp [h, Bind.bind, Except.bind]⟩
  | none =>
    refine ⟨.nameError "Dict", ?_⟩
    simp only [h]
    decide

/-- C2 (code bug): evaluated at the claimed inputs with
`reward_type='hand_success'` and `indicator_threshold=0.02`, the code
returns `[0.0]` for `achieved=[0.0], desired=[0.025]` and `[-1.0]` for
`achieved=[0.0], desired=[0.01]` — exactly the opposite of the claimed
(and spec-mandated) sparse indicator, because line 156 negates
`(r < threshold)` instead of `(r >= threshold)`. -/
theorem c2_hand_success_indicator_inverted :
    SawyerDoorEnv.compute_rewards
        { reward_type := "hand_success", indicator_threshold := 2/100 }
        [0] [25/1000] = .ok [0] ∧
    SawyerDoorEnv.compute_rewards
        { reward_type := "hand_success", indicator_threshold := 2/100 }
        [0] [1/100] = .ok [-1] := by
  constructor <;> norm_num +decide [SawyerDoorEnv.compute_rewards, abs]

/-- The configuration of the C3 scenario: `fix_goal=True`,
`fixed_goal=(0.15, 0.6, 0.3)`. -/
def c3_cfg : EnvConfig := { fix_goal := true, fixed_goal := [15/100, 6/10, 3/10] }

/-- C3 (counterexample): with `fix_goal=True, fixed_goal=(0.15, 0.6, 0.3)`,
the `desired_goal` of the observation returned by `reset()` is the entire
fixed goal vector `[0.15, 0.6, 0.3]`, not the 1-dimensional angle goal
`[0.3]` the claim states: `sample_goals` repeats `fixed_goal` whole and no
code extracts its angle component. -/
theorem c3_counterexample :
    (SawyerDoorEnv.reset c3_cfg fwd0 rng0 s0 true).2.desired_goal
      = [15/100, 6/10, 3/10] ∧
    ¬((SawyerDoorEnv.reset c3_cfg fwd0 rng0 s0 true).2.desired_goal = [3/10]) :=
  ⟨rfl, fun h => absurd (congrArg List.length h) (by decide)⟩

/-- C3 (amended): with `fix_goal=True, fixed_goal=(0.15, 0.6, 0.3)`, two
successive `reset()` calls (each resampling) return observations whose
`desired_goal` values are identical — independent of the randomness oracle
and of the starting state — and equal to the full fixed goal vector
`(0.15, 0.6, 0.3)`, whose angle component is 0.3. -/
theorem c3_fixed_goal_reset_deterministic (fwd : MjForward)
    (rng rng' : ℕ → List ℚ) (s : EnvState) :
    (SawyerDoorEnv.reset c3_cfg fwd rng s true).2.desired_goal
      = (SawyerDoorEnv.reset c3_cfg fwd rng'
          (SawyerDoorEnv.reset c3_cfg fwd rng s true).1 true).2.desired_goal ∧
    (SawyerDoorEnv.reset c3_cfg fwd rng s true).2.desired_goal
      = [15/100, 6/10, 3/10] :=
  ⟨rfl, rfl⟩

/-- C4: for any configured `reward_type` other than `'angle_difference'` and
`'hand_success'`, `compute_rewards` raises the explicit
`NotImplementedError("Invalid/no reward type.")` on every batch, and never
falls back to another reward policy. -/
theorem c4_invalid_reward_type_raises (cfg : EnvConfig)
    (achieved desired : List ℚ)
    (h1 : cfg.reward_type ≠ "angle_difference")
    (h2 : cfg.reward_type ≠ "hand_success") :
    SawyerDoorEnv.compute_rewards cfg achieved desired
      = .error "Invalid/no reward type." := by
  simp [SawyerDoorEnv.compute_rewards, h1, h2]

/-- Witness for C4 at `reward_type='bogus'`. -/
theorem c4_invalid_reward_type_raises_witness :
    (({ reward_type := "bogus" } : EnvConfig).reward_type ≠ "angle_difference") ∧
    (({ reward_type := "bogus" } : EnvConfig).reward_type ≠ "hand_success") ∧
    SawyerDoorEnv.compute_rewards { reward_type := "bogus" } [0] [1/10]
      = .error "Invalid/no reward type." :=
  ⟨by decide, by decide,
    c4_invalid_reward_type_raises { reward_type := "bogus" } [0] [1/10]
      (by decide) (by decide)⟩

/-- C5: under `'angle_difference'`, `compute_rewards` is the element-wise
negated absolute difference, and it is symmetric in the achieved and
desired batches. -/
theorem c5_angle_difference_neg_abs_and_symmetric (cfg : EnvConfig)
    (a b : List ℚ) (h : cfg.reward_type = "angle_difference") :
    SawyerDoorEnv.compute_rewards cfg a b
      = .ok (List.zipWith (fun x y => -|x - y|) a b) ∧
    SawyerDoorEnv.compute_rewards cfg a b
      = SawyerDoorEnv.compute_rewards cfg b a := by
  have key : ∀ u v : List ℚ, SawyerDoorEnv.compute_rewards cfg u v
      = .ok (List.zipWith (fun x y => -|x - y|) u v) := by
    intro u v
    simp [SawyerDoorEnv.compute_rewards, h, List.map_zipWith]
  refine ⟨key a b, ?_⟩
  rw [key a b, key b a]
  congr 1
  exact List.zipWith_comm_of_comm _ (fun x y => by rw [abs_sub_comm]) a b

/-- Witness for C5 with the default configuration. -/
theorem c5_angle_difference_neg_abs_and_symmetric_witness :
    (({} : EnvConfig).reward_type = "angle_difference") ∧
    (SawyerDoorEnv.compute_rewards {} [1/2] [1/4]
        = .ok (List.zipWith (fun x y => -|x - y|) [1/2] [1/4]) ∧
     SawyerDoorEnv.compute_rewards {} [1/2] [1/4]
        = SawyerDoorEnv.compute_rewards {} [1/4] [1/2]) :=
  ⟨rfl, c5_angle_difference_neg_abs_and_symmetric {} [1/2] [1/4] rfl⟩

/-- C6: for every raw 4-vector action, the per-axis mocap displacement built
by `step` (clip to `[-1,1]`, then scale) never exceeds `pos_action_scale`
in magnitude, and after `mocap_set_action` the commanded mocap position lies
in the variant's workspace box: x in `[-0.15, 0.15]` and y in `[0.5, 2]`
for the push-open variant, x in `[-max_x_pos, max_x_pos]` and y in
`[min_y_pos, max_y_pos]` (with `min_y_pos = 0.5` as set by `__init__`) for
the action-limited variant. -/
theorem c6_delta_bounded_and_workspace_clamped
    (pos_action_scale max_x_pos max_y_pos : ℚ) (a : Vec4) (sim : SimState)
    (hscale : 0 ≤ pos_action_scale) (hx : 0 ≤ max_x_pos)
    (hy : (1/2 : ℚ) ≤ max_y_pos) :
    (|(stepActionDelta pos_action_scale a).x| ≤ pos_action_scale ∧
     |(stepActionDelta pos_action_scale a).y| ≤ pos_action_scale ∧
     |(stepActionDelta pos_action_scale a).z| ≤ pos_action_scale) ∧
    (-(15/100) ≤ (SawyerDoorPushOpenEnv.mocap_set_action sim
        (stepActionDelta pos_action_scale a)).mocapPos.x ∧
     (SawyerDoorPushOpenEnv.mocap_set_action sim
        (stepActionDelta pos_action_scale a)).mocapPos.x ≤ 15/100 ∧
     5/10 ≤ (SawyerDoorPushOpenEnv.mocap_set_action sim
        (stepActionDelta pos_action_scale a)).mocapPos.y ∧
     (SawyerDoorPushOpenEnv.mocap_set_action sim
        (stepActionDelta pos_action_scale a)).mocapPos.y ≤ 2) ∧
    (-max_x_pos ≤ (SawyerDoorPushOpenActionLimitedEnv.mocap_set_action
        max_x_pos max_y_pos (1/2) sim
        (stepActionDelta pos_action_scale a)).mocapPos.x ∧
     (SawyerDoorPushOpenActionLimitedEnv.mocap_set_action
        max_x_pos max_y_pos (1/2) sim
        (stepActionDelta pos_action_scale a)).mocapPos.x ≤ max_x_pos ∧
     1/2 ≤ (SawyerDoorPushOpenActionLimitedEnv.mocap_set_action
        max_x_pos max_y_pos (1/2) sim
        (stepActionDelta pos_action_scale a)).mocapPos.y ∧
     (SawyerDoorPushOpenActionLimitedEnv.mocap_set_action
        max_x_pos max_y_pos (1/2) sim
        (stepActionDelta pos_action_scale a)).mocapPos.y ≤ max_y_pos) := by
  refine ⟨⟨abs_npclip_mul_le a.x _ hscale, abs_npclip_mul_le a.y _ hscale,
      abs_npclip_mul_le a.z _ hscale⟩,
    ⟨le_npclip _ _ _ (by norm_num), npclip_le _ _ _,
      le_npclip _ _ _ (by norm_num), npclip_le _ _ _⟩,
    ⟨le_npclip _ _ _ (by linarith), npclip_le _ _ _,
      le_npclip _ _ _ hy, npclip_le _ _ _⟩⟩

/-- Witness for C6 with the default scale, the default action-limited
bounds, and an action whose components exceed the clip range. -/
theorem c6_delta_bounded_and_workspace_clamped_witness :
    (0 ≤ (1/100 : ℚ)) ∧ (0 ≤ (1/10 : ℚ)) ∧ ((1/2 : ℚ) ≤ 7/10) ∧
    ((|(stepActionDelta (1/100) ⟨2, -3, 5, 0⟩).x| ≤ 1/100 ∧
      |(stepActionDelta (1/100) ⟨2, -3, 5, 0⟩).y| ≤ 1/100 ∧
      |(stepActionDelta (1/100) ⟨2, -3, 5, 0⟩).z| ≤ 1/100) ∧
     (-(15/100) ≤ (SawyerDoorPushOpenEnv.mocap_set_action s0.sim
        (stepActionDelta (1/100) ⟨2, -3, 5, 0⟩)).mocapPos.x ∧
      (SawyerDoorPushOpenEnv.mocap_set_action s0.sim
        (stepActionDelta (1/100) ⟨2, -3, 5, 0⟩)).mocapPos.x ≤ 15/100 ∧
      5/10 ≤ (SawyerDoorPushOpenEnv.mocap_set_action s0.sim
        (stepActionDelta (1/100) ⟨2, -3, 5, 0⟩)).mocapPos.y ∧
      (SawyerDoorPushOpenEnv.mocap_set_action s0.sim
        (stepActionDelta (1/100) ⟨2, -3, 5, 0⟩)).mocapPos.y ≤ 2) ∧
     (-(1/10) ≤ (SawyerDoorPushOpenActionLimitedEnv.mocap_set_action
        (1/10) (7/10) (1/2) s0.sim
        (stepActionDelta (1/100) ⟨2, -3, 5, 0⟩)).mocapPos.x ∧
      (SawyerDoorPushOpenActionLimitedEnv.mocap_set_action
        (1/10) (7/10) (1/2) s0.sim
        (stepActionDelta (1/100) ⟨2, -3, 5, 0⟩)).mocapPos.x ≤ 1/10 ∧
      1/2 ≤ (SawyerDoorPushOpenActionLimitedEnv.mocap_set_action
        (1/10) (7/10) (1/2) s0.sim
        (stepActionDelta (1/100) ⟨2, -3, 5, 0⟩)).mocapPos.y ∧
      (SawyerDoorPushOpenActionLimitedEnv.mocap_set_action
        (1/10) (7/10) (1/2) s0.sim
        (stepActionDelta (1/100) ⟨2, -3, 5, 0⟩)).mocapPos.y ≤ 7/10)) :=
  ⟨by norm_num, by norm_num, by norm_num,
    c6_delta_bounded_and_workspace_clamped (1/100) (1/10) (7/10)
      ⟨2, -3, 5, 0⟩ s0.sim (by norm_num) (by norm_num) (by norm_num)⟩

/-- C7: in every variant and for every action and state, the commanded
mocap z coordinate after `mocap_set_action` is the constant `0.06`
(whatever the action's z component) and the commanded quaternion is
`(1, 0, 1, 0)`.  The reach variant inherits the push-open method. -/
theorem c7_mocap_z_pinned_and_quat_canonical (sim : SimState) (action : Vec3)
    (max_x_pos max_y_pos min_y_pos : ℚ) :
    ((SawyerDoorEnv.mocap_set_action sim action).mocapPos.z = 6/100 ∧
     (SawyerDoorEnv.mocap_set_action sim action).mocapQuat = ⟨1, 0, 1, 0⟩) ∧
    ((SawyerDoorPushOpenEnv.mocap_set_action sim action).mocapPos.z = 6/100 ∧
     (SawyerDoorPushOpenEnv.mocap_set_action sim action).mocapQuat
        = ⟨1, 0, 1, 0⟩) ∧
    ((SawyerDoorPushOpenActionLimitedEnv.mocap_set_action max_x_pos max_y_pos
        min_y_pos sim action).mocapPos.z = 6/100 ∧
     (SawyerDoorPushOpenActionLimitedEnv.mocap_set_action max_x_pos max_y_pos
        min_y_pos sim action).mocapQuat = ⟨1, 0, 1, 0⟩) ∧
    ((SawyerDoorPullOpenEnv.mocap_set_action sim action).mocapPos.z = 6/100 ∧
     (SawyerDoorPullOpenEnv.mocap_set_action sim action).mocapQuat
        = ⟨1, 0, 1, 0⟩) :=
  ⟨⟨npclip_const_z, rfl⟩, ⟨npclip_const_z, rfl⟩, ⟨npclip_const_z, rfl⟩,
    ⟨npclip_const_z, rfl⟩⟩

/-- C8: the single-sample reward path `SawyerDoorEnv._compute_reward`
(a) never consults `reward_type`, (b) always equals
`-(|angle(obs) - goal|) - action_reward_scale * ‖action‖`, and (c) diverges
from the batch path `compute_rewards`: under `'hand_success'` the batch
path returns 0 at achieved 0 / desired 0.5 while the single-sample path
returns -0.5. -/
theorem c8_single_sample_reward_ignores_reward_type :
    (∀ (cfg : EnvConfig) (rt : String) (obs goal : List ℚ) (action : Vec4),
        SawyerDoorEnv._compute_reward { cfg with reward_type := rt }
            obs goal action
          = SawyerDoorEnv._compute_reward cfg obs goal action) ∧
    (∀ (cfg : EnvConfig) (obs goal : List ℚ) (action : Vec4),
        SawyerDoorEnv._compute_reward cfg obs goal action
          = -(((List.zipWith (fun x y => |x - y|)
                (MultitaskEnv.convert_ob_to_goal obs) goal).getD 0 0 : ℚ) : ℝ)
            - (cfg.action_reward_scale : ℝ) * np_linalg_norm4 action) ∧
    (SawyerDoorEnv.compute_rewards { reward_type := "hand_success" } [0] [1/2]
        = .ok [0] ∧
     SawyerDoorEnv._compute_reward { reward_type := "hand_success" }
        [0, 0, 0, 0] [1/2] ⟨0, 0, 0, 0⟩ = -(1/2) ∧
     ((0 : ℚ) : ℝ) ≠ -(1/2 : ℝ)) := by
  refine ⟨fun cfg rt obs goal action => rfl, ?_, ?_, ?_, by norm_num⟩
  · intro cfg obs goal action
    simp [SawyerDoorEnv._compute_reward]
    ring
  · norm_num +decide [SawyerDoorEnv.compute_rewards, abs]
  · norm_num [SawyerDoorEnv._compute_reward, MultitaskEnv.convert_ob_to_goal,
      np_linalg_norm4, abs]

/-- C9 (code bug in the reach variant): the base-class `step` hands the
caller `done = false` whenever it returns — for every variant dispatch,
engine behavior, configuration, state and action — and it contains no other
terminal condition; but `SawyerDoorPushOpenAndReachEnv.step` raises
`KeyError: -1` on every call, because `_compute_reward` indexes the
inherited `_get_obs` dictionary with `obs[-1]` (line 383), so it never
reaches its own unconditional `done = False` at line 374 and never returns
anything to the caller. -/
theorem c9_base_done_false_reach_step_always_raises :
    (∀ (cfg : EnvConfig) (doSim : SimState → SimState)
        (mocapSet : SimState → Vec3 → SimState) (s : EnvState) (a : Vec4),
        stepDone (SawyerDoorEnv.step cfg doSim mocapSet s a) = false) ∧
    (∀ (cfg : ReachConfig) (doSim : SimState → SimState) (g : ReachGoal)
        (sim : SimState) (a : Vec4),
        SawyerDoorPushOpenAndReachEnv.step cfg doSim g sim a
          = .error "KeyError: -1") :=
  ⟨fun _ _ _ _ _ => stepDone_map _ _ _, fun _ _ _ _ _ => rfl⟩

/-- C10: for every state whose derived body pose is consistent with the
engine's `forward` (every reachable state), `set_env_state(get_env_state())`
restores the state exactly, so every subsequent `step` — for any
configuration, engine behavior, variant dispatch and action — returns the
same observation, reward, done flag and info as without the round trip. -/
theorem c10_env_state_roundtrip (fwd : MjForward) (s : EnvState)
    (h : forward_consistent fwd s) :
    SawyerDoorEnv.set_env_state fwd (SawyerDoorEnv.get_env_state s) = s ∧
    ∀ (cfg : EnvConfig) (doSim : SimState → SimState)
        (mocapSet : SimState → Vec3 → SimState) (a : Vec4),
        SawyerDoorEnv.step cfg doSim mocapSet
            (SawyerDoorEnv.set_env_state fwd (SawyerDoorEnv.get_env_state s)) a
          = SawyerDoorEnv.step cfg doSim mocapSet s a := by
  have h1 : SawyerDoorEnv.set_env_state fwd (SawyerDoorEnv.get_env_state s)
      = s := by
    obtain ⟨⟨qp, qv, mp, mq, bp, bq⟩, g⟩ := s
    unfold forward_consistent at h
    simp only at h
    simp [SawyerDoorEnv.set_env_state, SawyerDoorEnv.get_env_state, ← h]
  exact ⟨h1, fun cfg doSim mocapSet a => by rw [h1]⟩

/-- Witness for C10 at a concrete consistent state. -/
theorem c10_env_state_roundtrip_witness :
    forward_consistent fwd0 s0 ∧
    (SawyerDoorEnv.set_env_state fwd0 (SawyerDoorEnv.get_env_state s0) = s0 ∧
     ∀ (cfg : EnvConfig) (doSim : SimState → SimState)
        (mocapSet : SimState → Vec3 → SimState) (a : Vec4),
        SawyerDoorEnv.step cfg doSim mocapSet
            (SawyerDoorEnv.set_env_state fwd0
              (SawyerDoorEnv.get_env_state s0)) a
          = SawyerDoorEnv.step cfg doSim mocapSet s0 a) :=
  ⟨rfl, c10_env_state_roundtrip fwd0 s0 rfl⟩
